import Mathlib

/-!
# Verification of the UDP southbound transport (stream-udp.c / vconn-udp.c)

Shallow embedding of the UDP stream layer (`udp_open`, `udp_recv`, `udp_send`
from `lib/stream-udp.c`) and the UDP vconn layer (`vconn_udp_recv`,
`vconn_udp_send`, `vconn_udp_run` from `lib/vconn-udp.c`).

Socket I/O is modelled by explicit events: a receive event is either a
datagram (a list of bytes handed up by `recvfrom`) or a socket error with an
errno; a send event is either `sendto` accepting `k` bytes or a socket error
with an errno.  Buffers are lists of bytes (`Nat`); machine integers are
modelled as `Int` where the C uses `ssize_t`/`int` return values.
-/

/-- Linux errno for "resource temporarily unavailable" (would block). -/
def EAGAIN : Nat := 11

/-- On Linux `EWOULDBLOCK` is the same code as `EAGAIN`; the C source tests
both names. -/
def EWOULDBLOCK : Nat := 11

/-- Linux errno for "message too long". -/
def EMSGSIZE : Nat := 90

/-- `MAX_OPENFLOW_MSG_SIZE` from vconn-udp.c (64KB - headers). -/
def MAX_OPENFLOW_MSG_SIZE : Nat := 65535

/-- `sizeof(struct ofp_header)`: version, type, 16-bit length, 32-bit xid. -/
def ofpHeaderSize : Nat := 8

/-- Outcome of the `recvfrom` call inside `udp_recv`: either a datagram with
byte contents `d` (so `recvfrom` returns `min |d| n` for buffer size `n`),
or a failure with the given errno. -/
inductive SockRecvEvent where
  | datagram (d : List Nat)
  | sockErr (e : Nat)
deriving DecidableEq

/-- Outcome of the `sendto` call inside `udp_send`: either the socket accepts
`k` bytes, or a failure with the given errno. -/
inductive SockSendEvent where
  | sent (k : Nat)
  | sockErr (e : Nat)
deriving DecidableEq

/-- `udp_recv` from stream-udp.c: returns the `ssize_t` result together with
the bytes written into the caller's buffer of size `n`.  An errno of
`EAGAIN`/`EWOULDBLOCK` maps to `-EAGAIN`, any other errno `e` to `-e`; a
zero-length read ("empty datagram - shouldn't happen but handle it") also
maps to `-EAGAIN`; otherwise the byte count is returned. -/
def udp_recv (ev : SockRecvEvent) (n : Nat) : Int × List Nat :=
  match ev with
  | .sockErr e =>
      if e = EAGAIN || e = EWOULDBLOCK then (-(EAGAIN : Int), [])
      else (-(e : Int), [])
  | .datagram d =>
      let r := d.take n
      if r.length = 0 then (-(EAGAIN : Int), [])
      else ((r.length : Int), r)

/-- `udp_send` from stream-udp.c: returns the `ssize_t` result of `sendto`.
An errno of `EAGAIN`/`EWOULDBLOCK` maps to `-EAGAIN`, any other errno `e`
to `-e`; otherwise the accepted byte count is returned. -/
def udp_send (ev : SockSendEvent) : Int :=
  match ev with
  | .sockErr e =>
      if e = EAGAIN || e = EWOULDBLOCK then -(EAGAIN : Int)
      else -(e : Int)
  | .sent k => (k : Int)

/-- State of a `struct vconn_udp`: the receive buffer and the single-slot
transmit buffer (`NULL` pointers modelled as `none`). -/
structure VconnUdp where
  rxbuf : Option (List Nat)
  txbuf : Option (List Nat)
deriving DecidableEq

/-- Result of `vconn_udp_recv` as seen by the caller: a complete message
(ownership transferred), `EAGAIN`, or a hard error code (the positive errno,
or `-1` for the `EOF` return). -/
inductive RecvResult where
  | ok (msg : List Nat)
  | eagain
  | err (e : Int)
deriving DecidableEq

/-- `ntohs(oh->length)`: the big-endian 16-bit length field at byte offsets
2 and 3 of the OpenFlow header. -/
def declaredLen (d : List Nat) : Nat := 256 * d.getD 2 0 + d.getD 3 0

/-- `vconn_udp_recv` from vconn-udp.c.  The receive buffer is allocated if
absent and cleared; `stream_recv` (which dispatches to `udp_recv`, with
tailroom `MAX_OPENFLOW_MSG_SIZE`) is called exactly once.  On `-EAGAIN` the
call returns `EAGAIN`; on another non-positive result it returns the positive
errno (or `EOF = -1` when the result is zero).  A datagram shorter than
`sizeof(struct ofp_header)` is discarded with `EAGAIN`; a datagram whose
declared length exceeds the received length is discarded with `EAGAIN`; a
declared length below the received length truncates the buffer to the
declared length; the resulting message is handed to the caller and the
receive buffer slot is cleared (ownership transfer). -/
def vconn_udp_recv (st : VconnUdp) (ev : SockRecvEvent) :
    RecvResult × VconnUdp :=
  let res := udp_recv ev MAX_OPENFLOW_MSG_SIZE
  let error := res.1
  let data := res.2
  if error ≤ 0 then
    if error = -(EAGAIN : Int) then (.eagain, { st with rxbuf := some [] })
    else if error = 0 then (.err (-1), { st with rxbuf := some [] })
    else (.err (-error), { st with rxbuf := some [] })
  else
    let rx_len := data.length
    if rx_len < ofpHeaderSize then
      (.eagain, { st with rxbuf := some data })
    else
      let msg_len := declaredLen data
      if msg_len > rx_len then
        (.eagain, { st with rxbuf := some data })
      else
        (.ok (data.take msg_len), { st with rxbuf := none })

/-- Result of `vconn_udp_send`: the returned `int` (0 on success, an errno
otherwise; the C never returns a negative value here), the post-state, and
how many times `stream_send` was invoked. -/
structure SendOutcome where
  ret : Nat
  state : VconnUdp
  streamSendCalls : Nat
deriving DecidableEq

/-- `vconn_udp_send` from vconn-udp.c.  A message larger than
`MAX_OPENFLOW_MSG_SIZE` is deleted and rejected with `EMSGSIZE` without
calling `stream_send`.  Otherwise `stream_send` (dispatching to `udp_send`)
is called once: a full send deletes the message and returns 0; a
non-negative short result deletes the message and returns `EAGAIN`; on
`-EAGAIN` the message replaces any queued message in the transmit slot and 0
is returned; on another negative result the message is deleted and the
positive errno returned. -/
def vconn_udp_send (st : VconnUdp) (msg : List Nat) (ev : SockSendEvent) :
    SendOutcome :=
  let msg_len := msg.length
  if msg_len > MAX_OPENFLOW_MSG_SIZE then
    { ret := EMSGSIZE, state := st, streamSendCalls := 0 }
  else
    let error := udp_send ev
    if error = (msg_len : Int) then
      { ret := 0, state := st, streamSendCalls := 1 }
    else if 0 ≤ error then
      { ret := EAGAIN, state := st, streamSendCalls := 1 }
    else if error = -(EAGAIN : Int) then
      { ret := 0, state := { st with txbuf := some msg }, streamSendCalls := 1 }
    else
      { ret := (-error).toNat, state := st, streamSendCalls := 1 }

/-- `vconn_udp_run` from vconn-udp.c: after the stream's `run` (a no-op for
UDP), if a message is queued in the transmit slot, `stream_send` is tried
once: a full send deletes it and clears the slot; a non-negative short
result leaves it queued; `-EAGAIN` leaves it queued; any other negative
result (hard error) deletes it and clears the slot. -/
def vconn_udp_run (st : VconnUdp) (ev : SockSendEvent) : VconnUdp :=
  match st.txbuf with
  | none => st
  | some m =>
      let msg_len := m.length
      let error := udp_send ev
      if error = (msg_len : Int) then { st with txbuf := none }
      else if 0 ≤ error then st
      else if error ≠ -(EAGAIN : Int) then { st with txbuf := none }
      else st

/-- Inputs that decide the control flow of `udp_open`: the results of
`inet_parse_active`, `socket`, `set_nonblocking`, `connect` and
`setsockopt` (the last two reported as `some errno` on failure). -/
structure UdpOpenEnv where
  parse : Except Nat Nat
  socketFd : Except Nat Nat
  setNonblocking : Option Nat
  connectErr : Option Nat
  setsockoptErr : Option Nat

/-- State of a `struct udp_stream` as built by `new_udp_stream`. -/
structure UdpStream where
  fd : Nat
  remote : Nat
  connectStatus : Nat
  connected : Bool
deriving DecidableEq

/-- `udp_open` from stream-udp.c.  Address-parse failure, socket-creation
failure, and set-nonblocking failure each abort with that errno.  A failing
`connect` only logs a warning ("For UDP, connect() failure might not be
fatal") and continues; a failing `setsockopt` likewise.  The stream is then
created with connect status 0 (hence `connected = true`). -/
def udp_open (env : UdpOpenEnv) : Except Nat UdpStream :=
  match env.parse with
  | .error e => .error e
  | .ok ss =>
      match env.socketFd with
      | .error e => .error e
      | .ok fd =>
          match env.setNonblocking with
          | some e => .error e
          | none =>
              .ok { fd := fd, remote := ss, connectStatus := 0,
                    connected := true }

/-- Evaluation of the stream layer on a nonempty datagram that fits the
vconn receive buffer: `udp_recv` hands up the whole datagram. -/
theorem udp_recv_datagram_eval (d : List Nat) (h0 : 0 < d.length)
    (hle : d.length ≤ MAX_OPENFLOW_MSG_SIZE) :
    udp_recv (.datagram d) MAX_OPENFLOW_MSG_SIZE = ((d.length : Int), d) := by
  unfold udp_recv
  simp only [List.take_of_length_le hle]
  rw [if_neg (Nat.pos_iff_ne_zero.mp h0)]

/-- Control-flow shape of `vconn_udp_recv` on a nonempty datagram that fits
the receive buffer. -/
theorem vconn_udp_recv_datagram (st : VconnUdp) (d : List Nat)
    (h0 : 0 < d.length) (hle : d.length ≤ MAX_OPENFLOW_MSG_SIZE) :
    vconn_udp_recv st (.datagram d) =
      if d.length < ofpHeaderSize then
        (.eagain, { st with rxbuf := some d })
      else if declaredLen d > d.length then
        (.eagain, { st with rxbuf := some d })
      else
        (.ok (d.take (declaredLen d)), { st with rxbuf := none }) := by
  unfold vconn_udp_recv
  rw [udp_recv_datagram_eval d h0 hle]
  simp only []
  rw [if_neg (not_le.mpr (Int.natCast_pos.mpr h0))]

/-- Claim C1: a datagram shorter than the fixed OpenFlow header, or whose
header declares more bytes than were received, is discarded by
`vconn_udp_recv` with `EAGAIN` (WouldBlock), not a hard error, and the
vconn remains usable: a subsequent `recv` of a well-formed datagram
succeeds. -/
theorem vconn_udp_recv_malformed_discard (st : VconnUdp) (d d2 : List Nat)
    (h0 : 0 < d.length) (hle : d.length ≤ MAX_OPENFLOW_MSG_SIZE)
    (hmal : d.length < ofpHeaderSize ∨ d.length < declaredLen d)
    (hle2 : d2.length ≤ MAX_OPENFLOW_MSG_SIZE)
    (hhdr2 : ofpHeaderSize ≤ d2.length)
    (hdecl2 : declaredLen d2 ≤ d2.length) :
    (vconn_udp_recv st (.datagram d)).1 = RecvResult.eagain ∧
    (vconn_udp_recv (vconn_udp_recv st (.datagram d)).2 (.datagram d2)).1 =
      RecvResult.ok (d2.take (declaredLen d2)) := by
  have h02 : 0 < d2.length := lt_of_lt_of_le (by decide) hhdr2
  have hshape2 : ∀ s : VconnUdp,
      (vconn_udp_recv s (.datagram d2)).1 =
        RecvResult.ok (d2.take (declaredLen d2)) := by
    intro s
    rw [vconn_udp_recv_datagram s d2 h02 hle2]
    rw [if_neg (not_lt.mpr hhdr2), if_neg (not_lt.mpr hdecl2)]
  refine ⟨?_, hshape2 _⟩
  rw [vconn_udp_recv_datagram st d h0 hle]
  rcases hmal with h | h
  · rw [if_pos h]
  · by_cases hh : d.length < ofpHeaderSize
    · rw [if_pos hh]
    · rw [if_neg hh, if_pos h]

/-- Witness for C1: a 3-byte datagram is discarded with `EAGAIN`, and an
8-byte well-formed datagram is then received successfully. -/
theorem vconn_udp_recv_malformed_discard_witness :
    (vconn_udp_recv ⟨none, none⟩ (.datagram [1, 2, 3])).1 =
      RecvResult.eagain ∧
    (vconn_udp_recv (vconn_udp_recv ⟨none, none⟩ (.datagram [1, 2, 3])).2
        (.datagram [4, 0, 0, 8, 0, 0, 0, 1])).1 =
      RecvResult.ok [4, 0, 0, 8, 0, 0, 0, 1] := by
  have h := vconn_udp_recv_malformed_discard ⟨none, none⟩ [1, 2, 3]
    [4, 0, 0, 8, 0, 0, 0, 1] (by decide) (by decide) (Or.inl (by decide))
    (by decide) (by decide) (by decide)
  exact ⟨h.1, by rw [h.2]; decide⟩

/-- Claim C2: when a datagram's declared length `L` is below the number of
bytes received, `vconn_udp_recv` succeeds with exactly the `L`-byte prefix
of the datagram; the trailing bytes are discarded. -/
theorem vconn_udp_recv_truncates (st : VconnUdp) (d : List Nat)
    (hle : d.length ≤ MAX_OPENFLOW_MSG_SIZE)
    (hhdr : ofpHeaderSize ≤ d.length)
    (hlt : declaredLen d < d.length) :
    (vconn_udp_recv st (.datagram d)).1 =
      RecvResult.ok (d.take (declaredLen d)) ∧
    (d.take (declaredLen d)).length = declaredLen d := by
  have h0 : 0 < d.length := lt_of_lt_of_le (by decide) hhdr
  constructor
  · rw [vconn_udp_recv_datagram st d h0 hle]
    rw [if_neg (not_lt.mpr hhdr), if_neg (not_lt.mpr (le_of_lt hlt))]
  · rw [List.length_take]
    exact Nat.min_eq_left (le_of_lt hlt)

/-- Witness for C2: a 10-byte datagram declaring length 8 yields exactly its
8-byte prefix. -/
theorem vconn_udp_recv_truncates_witness :
    (vconn_udp_recv ⟨none, none⟩
        (.datagram [1, 0, 0, 8, 0, 0, 0, 2, 7, 7])).1 =
      RecvResult.ok [1, 0, 0, 8, 0, 0, 0, 2] ∧
    ofpHeaderSize ≤ 10 ∧ declaredLen [1, 0, 0, 8, 0, 0, 0, 2, 7, 7] < 10 := by
  have h := vconn_udp_recv_truncates ⟨none, none⟩
    [1, 0, 0, 8, 0, 0, 0, 2, 7, 7] (by decide) (by decide) (by decide)
  exact ⟨by rw [h.1]; decide, by decide, by decide⟩

/-- Counterexample to claim C9: a 10-byte datagram whose header declares
length 5 is returned successfully by `vconn_udp_recv` as a 5-byte message,
which is shorter than a complete OpenFlow header. -/
theorem vconn_udp_recv_subheader_msg :
    (vconn_udp_recv ⟨none, none⟩
        (.datagram [1, 0, 0, 5, 0, 0, 0, 0, 9, 9])).1 =
      RecvResult.ok [1, 0, 0, 5, 0] ∧
    List.length [1, 0, 0, 5, 0] < ofpHeaderSize := by
  decide

/-- Claim C9 (amended): a successful `vconn_udp_recv` implies the received
datagram itself was at least header-sized, and the returned message's length
equals the header's declared length (which is at most the datagram length
but may be smaller than the header size, so the message handed to the caller
can be shorter than a complete header). -/
theorem vconn_udp_recv_ok_length (st : VconnUdp) (d m : List Nat)
    (hle : d.length ≤ MAX_OPENFLOW_MSG_SIZE)
    (hok : (vconn_udp_recv st (.datagram d)).1 = RecvResult.ok m) :
    ofpHeaderSize ≤ d.length ∧ m.length = declaredLen d ∧
      declaredLen d ≤ d.length := by
  by_cases h0 : 0 < d.length
  · rw [vconn_udp_recv_datagram st d h0 hle] at hok
    by_cases hh : d.length < ofpHeaderSize
    · rw [if_pos hh] at hok
      exact absurd hok (by simp)
    · rw [if_neg hh] at hok
      by_cases hd : declaredLen d > d.length
      · rw [if_pos hd] at hok
        exact absurd hok (by simp)
      · rw [if_neg hd] at hok
        simp only [Prod.fst] at hok
        have hm : m = d.take (declaredLen d) := by
          have := hok
          injection this with h2
          exact h2.symm
        refine ⟨not_lt.mp hh, ?_, not_lt.mp hd⟩
        rw [hm, List.length_take]
        exact Nat.min_eq_left (not_lt.mp hd)
  · have hz : d.length = 0 := Nat.eq_zero_of_not_pos h0
    have : (vconn_udp_recv st (.datagram d)).1 = RecvResult.eagain := by
      unfold vconn_udp_recv udp_recv
      have : d.take MAX_OPENFLOW_MSG_SIZE = [] := by
        rw [List.take_of_length_le (by omega), List.eq_nil_of_length_eq_zero hz]
      simp [this]
    rw [this] at hok
    exact absurd hok (by simp)

/-- Witness for the amended C9 at the counterexample datagram. -/
theorem vconn_udp_recv_ok_length_witness :
    ofpHeaderSize ≤ List.length [1, 0, 0, 5, 0, 0, 0, 0, 9, 9] ∧
    List.length [1, 0, 0, 5, 0] = declaredLen [1, 0, 0, 5, 0, 0, 0, 0, 9, 9] ∧
    declaredLen [1, 0, 0, 5, 0, 0, 0, 0, 9, 9] ≤
      List.length [1, 0, 0, 5, 0, 0, 0, 0, 9, 9] :=
  vconn_udp_recv_ok_length ⟨none, none⟩ [1, 0, 0, 5, 0, 0, 0, 0, 9, 9]
    [1, 0, 0, 5, 0] (by decide) (by decide)

/-- Oversize branch of `vconn_udp_send`: the message is rejected with
`EMSGSIZE` before `stream_send` is reached. -/
theorem vconn_udp_send_oversize_eval (st : VconnUdp) (msg : List Nat)
    (ev : SockSendEvent) (hbig : MAX_OPENFLOW_MSG_SIZE < msg.length) :
    vconn_udp_send st msg ev =
      { ret := EMSGSIZE, state := st, streamSendCalls := 0 } := by
  simp only [vconn_udp_send]
  rw [if_pos hbig]

/-- Full-send branch of `vconn_udp_send`: the stream accepted exactly the
message length. -/
theorem vconn_udp_send_full_eval (st : VconnUdp) (msg : List Nat)
    (ev : SockSendEvent) (hle : msg.length ≤ MAX_OPENFLOW_MSG_SIZE)
    (hfull : udp_send ev = (msg.length : Int)) :
    vconn_udp_send st msg ev =
      { ret := 0, state := st, streamSendCalls := 1 } := by
  simp only [vconn_udp_send]
  rw [if_neg (not_lt.mpr hle), if_pos hfull]

/-- Short-write branch of `vconn_udp_send`: a non-negative stream result
different from the message length yields `EAGAIN` with the message deleted. -/
theorem vconn_udp_send_short_eval (st : VconnUdp) (msg : List Nat)
    (ev : SockSendEvent) (hle : msg.length ≤ MAX_OPENFLOW_MSG_SIZE)
    (h0 : 0 ≤ udp_send ev) (hne : udp_send ev ≠ (msg.length : Int)) :
    vconn_udp_send st msg ev =
      { ret := EAGAIN, state := st, streamSendCalls := 1 } := by
  simp only [vconn_udp_send]
  rw [if_neg (not_lt.mpr hle), if_neg hne, if_pos h0]

/-- WouldBlock branch of `vconn_udp_send`: the message is moved into the
transmit slot, replacing any previous occupant, and 0 is returned. -/
theorem vconn_udp_send_queue_eval (st : VconnUdp) (msg : List Nat)
    (ev : SockSendEvent) (hle : msg.length ≤ MAX_OPENFLOW_MSG_SIZE)
    (hwb : udp_send ev = -(EAGAIN : Int)) :
    vconn_udp_send st msg ev =
      { ret := 0, state := { st with txbuf := some msg },
        streamSendCalls := 1 } := by
  simp only [vconn_udp_send]
  have hne : udp_send ev ≠ (msg.length : Int) := by
    rw [hwb]; intro h
    have h0 : (0 : Int) ≤ (msg.length : Int) := Int.natCast_nonneg _
    rw [← h] at h0
    exact absurd h0 (by decide)
  have h0 : ¬ (0 : Int) ≤ udp_send ev := by rw [hwb]; decide
  rw [if_neg (not_lt.mpr hle), if_neg hne, if_neg h0, if_pos hwb]

/-- Hard-error branch of `vconn_udp_send`: a negative stream result other
than `-EAGAIN` deletes the message and returns the positive errno. -/
theorem vconn_udp_send_err_eval (st : VconnUdp) (msg : List Nat)
    (ev : SockSendEvent) (hle : msg.length ≤ MAX_OPENFLOW_MSG_SIZE)
    (hneg : udp_send ev < 0) (hne : udp_send ev ≠ -(EAGAIN : Int)) :
    vconn_udp_send st msg ev =
      { ret := (-(udp_send ev)).toNat, state := st, streamSendCalls := 1 } := by
  simp only [vconn_udp_send]
  have hne2 : udp_send ev ≠ (msg.length : Int) := by
    intro h
    have h0 : (0 : Int) ≤ (msg.length : Int) := Int.natCast_nonneg _
    rw [← h] at h0
    exact absurd hneg (not_lt.mpr h0)
  rw [if_neg (not_lt.mpr hle), if_neg hne2, if_neg (not_le.mpr hneg),
      if_neg hne]

/-- `vconn_udp_run` with an empty transmit slot does nothing. -/
theorem vconn_udp_run_none (st : VconnUdp) (ev : SockSendEvent)
    (h : st.txbuf = none) : vconn_udp_run st ev = st := by
  simp only [vconn_udp_run, h]

/-- `vconn_udp_run` flush where the stream accepts the whole queued message:
the slot is cleared. -/
theorem vconn_udp_run_full (st : VconnUdp) (m : List Nat)
    (ev : SockSendEvent) (h : st.txbuf = some m)
    (hfull : udp_send ev = (m.length : Int)) :
    vconn_udp_run st ev = { st with txbuf := none } := by
  simp only [vconn_udp_run, h]
  rw [if_pos hfull]

/-- `vconn_udp_run` flush with a short (non-negative, incomplete) write: the
queued message is left untouched. -/
theorem vconn_udp_run_short (st : VconnUdp) (m : List Nat)
    (ev : SockSendEvent) (h : st.txbuf = some m)
    (h0 : 0 ≤ udp_send ev) (hne : udp_send ev ≠ (m.length : Int)) :
    vconn_udp_run st ev = st := by
  simp only [vconn_udp_run, h]
  rw [if_neg hne, if_pos h0]

/-- `vconn_udp_run` flush hitting `-EAGAIN`: the queued message is kept. -/
theorem vconn_udp_run_wb (st : VconnUdp) (m : List Nat)
    (ev : SockSendEvent) (h : st.txbuf = some m)
    (hwb : udp_send ev = -(EAGAIN : Int)) :
    vconn_udp_run st ev = st := by
  simp only [vconn_udp_run, h]
  have hne : udp_send ev ≠ (m.length : Int) := by
    rw [hwb]; intro hx
    have h0 : (0 : Int) ≤ (m.length : Int) := Int.natCast_nonneg _
    rw [← hx] at h0
    exact absurd h0 (by decide)
  have h0 : ¬ (0 : Int) ≤ udp_send ev := by rw [hwb]; decide
  rw [if_neg hne, if_neg h0, if_neg (by rw [hwb]; simp)]

/-- Claim C3: when the stream returns WouldBlock, `vconn_udp_send` moves the
message into the single transmit slot (replacing any previous occupant) and
returns 0, not `EAGAIN`; two such sends in a row leave only the second
message queued (last-write-wins). -/
theorem vconn_udp_send_wouldblock_queue (st : VconnUdp) (m1 m2 : List Nat)
    (h1 : m1.length ≤ MAX_OPENFLOW_MSG_SIZE)
    (h2 : m2.length ≤ MAX_OPENFLOW_MSG_SIZE) :
    (vconn_udp_send st m1 (.sockErr EAGAIN)).ret = 0 ∧
    (vconn_udp_send st m1 (.sockErr EAGAIN)).state.txbuf = some m1 ∧
    (vconn_udp_send (vconn_udp_send st m1 (.sockErr EAGAIN)).state m2
        (.sockErr EAGAIN)).ret = 0 ∧
    (vconn_udp_send (vconn_udp_send st m1 (.sockErr EAGAIN)).state m2
        (.sockErr EAGAIN)).state.txbuf = some m2 := by
  have hwb : udp_send (.sockErr EAGAIN) = -(EAGAIN : Int) := by decide
  rw [vconn_udp_send_queue_eval st m1 (.sockErr EAGAIN) h1 hwb]
  rw [vconn_udp_send_queue_eval _ m2 (.sockErr EAGAIN) h2 hwb]
  exact ⟨rfl, rfl, rfl, rfl⟩

/-- Witness for C3 with two concrete 8-byte messages. -/
theorem vconn_udp_send_wouldblock_queue_witness :
    (vconn_udp_send ⟨none, none⟩ [1, 0, 0, 8, 0, 0, 0, 1]
        (.sockErr EAGAIN)).ret = 0 ∧
    (vconn_udp_send ⟨none, none⟩ [1, 0, 0, 8, 0, 0, 0, 1]
        (.sockErr EAGAIN)).state.txbuf = some [1, 0, 0, 8, 0, 0, 0, 1] ∧
    (vconn_udp_send (vconn_udp_send ⟨none, none⟩ [1, 0, 0, 8, 0, 0, 0, 1]
          (.sockErr EAGAIN)).state [1, 0, 0, 8, 0, 0, 0, 2]
        (.sockErr EAGAIN)).ret = 0 ∧
    (vconn_udp_send (vconn_udp_send ⟨none, none⟩ [1, 0, 0, 8, 0, 0, 0, 1]
          (.sockErr EAGAIN)).state [1, 0, 0, 8, 0, 0, 0, 2]
        (.sockErr EAGAIN)).state.txbuf = some [1, 0, 0, 8, 0, 0, 0, 2] :=
  vconn_udp_send_wouldblock_queue ⟨none, none⟩ [1, 0, 0, 8, 0, 0, 0, 1]
    [1, 0, 0, 8, 0, 0, 0, 2] (by decide) (by decide)

/-- Claim C4: a message exceeding `MAX_OPENFLOW_MSG_SIZE` is rejected with
`EMSGSIZE`, the underlying stream send is never invoked, and the vconn state
is unchanged. -/
theorem vconn_udp_send_oversize (st : VconnUdp) (msg : List Nat)
    (ev : SockSendEvent) (hbig : MAX_OPENFLOW_MSG_SIZE < msg.length) :
    (vconn_udp_send st msg ev).ret = EMSGSIZE ∧
    (vconn_udp_send st msg ev).streamSendCalls = 0 ∧
    (vconn_udp_send st msg ev).state = st := by
  rw [vconn_udp_send_oversize_eval st msg ev hbig]
  exact ⟨rfl, rfl, rfl⟩

/-- Witness for C4: a 65536-byte message is rejected without a stream call. -/
theorem vconn_udp_send_oversize_witness :
    (vconn_udp_send ⟨none, none⟩ (List.replicate 65536 0) (.sent 0)).ret =
      EMSGSIZE ∧
    (vconn_udp_send ⟨none, none⟩ (List.replicate 65536 0)
        (.sent 0)).streamSendCalls = 0 ∧
    (vconn_udp_send ⟨none, none⟩ (List.replicate 65536 0) (.sent 0)).state =
      (⟨none, none⟩ : VconnUdp) :=
  vconn_udp_send_oversize ⟨none, none⟩ (List.replicate 65536 0) (.sent 0)
    (by rw [List.length_replicate]; decide)

/-- Counterexample to claim C5: when the stream accepts only 3 of 8 bytes (a
short write), `vconn_udp_send` deletes the message — neither transmitting it
in full nor retaining it in the transmit slot — and returns `EAGAIN`, the
retryable WouldBlock code, i.e. the drop is signalled as retryable rather
than as an error condition. -/
theorem vconn_udp_send_shortwrite_drop :
    (vconn_udp_send ⟨none, none⟩ [1, 0, 0, 8, 0, 0, 0, 7]
        (.sent 3)).ret = EAGAIN ∧
    (vconn_udp_send ⟨none, none⟩ [1, 0, 0, 8, 0, 0, 0, 7]
        (.sent 3)).state.txbuf = none ∧
    udp_send (.sent 3) ≠ ((8 : Nat) : Int) ∧
    List.length [1, 0, 0, 8, 0, 0, 0, 7] = 8 := by
  decide

/-- Claim C5 (amended): every message handed to `vconn_udp_send` is either
fully transmitted by a single stream send, or retained in the transmit slot,
or dropped with a nonzero return code — but the nonzero code for a short
write is `EAGAIN` (the retryable WouldBlock code, with the slot untouched),
not a hard error. -/
theorem vconn_udp_send_disposition (st : VconnUdp) (msg : List Nat)
    (ev : SockSendEvent) :
    (((vconn_udp_send st msg ev).streamSendCalls = 1 ∧
        udp_send ev = (msg.length : Int) ∧
        (vconn_udp_send st msg ev).ret = 0) ∨
      (vconn_udp_send st msg ev).state.txbuf = some msg ∨
      (vconn_udp_send st msg ev).ret ≠ 0) ∧
    (msg.length ≤ MAX_OPENFLOW_MSG_SIZE → 0 ≤ udp_send ev →
      udp_send ev ≠ (msg.length : Int) →
      (vconn_udp_send st msg ev).ret = EAGAIN ∧
      (vconn_udp_send st msg ev).state.txbuf = st.txbuf) := by
  constructor
  · by_cases hbig : MAX_OPENFLOW_MSG_SIZE < msg.length
    · right; right
      rw [vconn_udp_send_oversize_eval st msg ev hbig]
      simp [EMSGSIZE]
    · have hle := not_lt.mp hbig
      by_cases hfull : udp_send ev = (msg.length : Int)
      · left
        rw [vconn_udp_send_full_eval st msg ev hle hfull]
        exact ⟨rfl, hfull, rfl⟩
      · by_cases h0 : 0 ≤ udp_send ev
        · right; right
          rw [vconn_udp_send_short_eval st msg ev hle h0 hfull]
          simp [EAGAIN]
        · by_cases hwb : udp_send ev = -(EAGAIN : Int)
          · right; left
            rw [vconn_udp_send_queue_eval st msg ev hle hwb]
          · right; right
            rw [vconn_udp_send_err_eval st msg ev hle (not_le.mp h0) hwb]
            intro h
            rw [Int.toNat_eq_zero] at h
            have := not_le.mp h0
            omega
  · intro hle h0 hne
    rw [vconn_udp_send_short_eval st msg ev hle h0 hne]
    exact ⟨rfl, rfl⟩

/-- Witness for the amended C5 at a concrete short write: 3 of 8 bytes
accepted yields `EAGAIN` with the slot untouched. -/
theorem vconn_udp_send_disposition_witness :
    (vconn_udp_send ⟨none, none⟩ [1, 0, 0, 8, 0, 0, 0, 9]
        (.sent 3)).ret = EAGAIN ∧
    (vconn_udp_send ⟨none, none⟩ [1, 0, 0, 8, 0, 0, 0, 9]
        (.sent 3)).state.txbuf = (⟨none, none⟩ : VconnUdp).txbuf :=
  (vconn_udp_send_disposition ⟨none, none⟩ [1, 0, 0, 8, 0, 0, 0, 9]
    (.sent 3)).2 (by decide) (by decide) (by decide)

/-- Counterexample to claim C6: with a stale message already queued in the
transmit slot, a send in which the stream accepts the full new message
returns success but leaves the stale message queued — the slot is not
cleared by a full send. -/
theorem vconn_udp_send_full_keeps_stale_txbuf :
    (vconn_udp_send ⟨none, some [9, 9, 9]⟩ [1, 0, 0, 8, 0, 0, 0, 7]
        (.sent 8)).ret = 0 ∧
    udp_send (.sent 8) = ((8 : Nat) : Int) ∧
    List.length [1, 0, 0, 8, 0, 0, 0, 7] = 8 ∧
    (vconn_udp_send ⟨none, some [9, 9, 9]⟩ [1, 0, 0, 8, 0, 0, 0, 7]
        (.sent 8)).state.txbuf = some [9, 9, 9] := by
  decide

/-- Claim C6 (amended): a `vconn_udp_run` flush in which the stream accepts
the whole queued message clears the transmit slot; a full `vconn_udp_send`,
by contrast, leaves the slot exactly as it was (so it is empty afterwards
only if it was empty before). -/
theorem tx_slot_clear_behavior (st : VconnUdp) (m msg : List Nat)
    (ev : SockSendEvent) :
    (st.txbuf = some m → udp_send ev = (m.length : Int) →
      (vconn_udp_run st ev).txbuf = none) ∧
    (msg.length ≤ MAX_OPENFLOW_MSG_SIZE → udp_send ev = (msg.length : Int) →
      (vconn_udp_send st msg ev).state.txbuf = st.txbuf) := by
  constructor
  · intro h hfull
    rw [vconn_udp_run_full st m ev h hfull]
  · intro hle hfull
    rw [vconn_udp_send_full_eval st msg ev hle hfull]

/-- Witness for the amended C6: a run-flush that is fully accepted clears
the slot, and a fully accepted send leaves a stale queued message in
place. -/
theorem tx_slot_clear_behavior_witness :
    (vconn_udp_run ⟨none, some [1, 0, 0, 8, 0, 0, 0, 7]⟩ (.sent 8)).txbuf =
      none ∧
    (vconn_udp_send ⟨none, some [1, 0, 0, 8, 0, 0, 0, 7]⟩
        [1, 0, 0, 8, 0, 0, 0, 7] (.sent 8)).state.txbuf =
      (⟨none, some [1, 0, 0, 8, 0, 0, 0, 7]⟩ : VconnUdp).txbuf :=
  ⟨(tx_slot_clear_behavior ⟨none, some [1, 0, 0, 8, 0, 0, 0, 7]⟩
      [1, 0, 0, 8, 0, 0, 0, 7] [1, 0, 0, 8, 0, 0, 0, 7] (.sent 8)).1 rfl
      (by decide),
    (tx_slot_clear_behavior ⟨none, some [1, 0, 0, 8, 0, 0, 0, 7]⟩
      [1, 0, 0, 8, 0, 0, 0, 7] [1, 0, 0, 8, 0, 0, 0, 7] (.sent 8)).2
      (by decide) (by decide)⟩

/-- Claim C10: a short (non-negative, incomplete) flush in `vconn_udp_run`
leaves the queued message whole and unmodified in the transmit slot, and the
next `run` whose stream result accepts the whole message transmits it and
clears the slot. -/
theorem vconn_udp_run_shortwrite_retains (st : VconnUdp) (m : List Nat)
    (ev ev2 : SockSendEvent) (h : st.txbuf = some m)
    (h0 : 0 ≤ udp_send ev) (hne : udp_send ev ≠ (m.length : Int))
    (hfull : udp_send ev2 = (m.length : Int)) :
    vconn_udp_run st ev = st ∧
    (vconn_udp_run st ev).txbuf = some m ∧
    (vconn_udp_run (vconn_udp_run st ev) ev2).txbuf = none := by
  have h1 := vconn_udp_run_short st m ev h h0 hne
  refine ⟨h1, ?_, ?_⟩
  · rw [h1]; exact h
  · rw [h1, vconn_udp_run_full st m ev2 h hfull]

/-- Witness for C10: a 3-of-8-byte flush retains the message; the next full
flush clears the slot. -/
theorem vconn_udp_run_shortwrite_retains_witness :
    vconn_udp_run ⟨none, some [1, 0, 0, 8, 0, 0, 0, 7]⟩ (.sent 3) =
      (⟨none, some [1, 0, 0, 8, 0, 0, 0, 7]⟩ : VconnUdp) ∧
    (vconn_udp_run ⟨none, some [1, 0, 0, 8, 0, 0, 0, 7]⟩ (.sent 3)).txbuf =
      some [1, 0, 0, 8, 0, 0, 0, 7] ∧
    (vconn_udp_run (vconn_udp_run ⟨none, some [1, 0, 0, 8, 0, 0, 0, 7]⟩
        (.sent 3)) (.sent 8)).txbuf = none :=
  vconn_udp_run_shortwrite_retains ⟨none, some [1, 0, 0, 8, 0, 0, 0, 7]⟩
    [1, 0, 0, 8, 0, 0, 0, 7] (.sent 3) (.sent 8) rfl (by decide) (by decide)
    (by decide)

/-- Claim C7: when address parsing, socket creation and non-blocking
configuration succeed, `udp_open` returns a usable stream regardless of
whether the `connect` (default-peer bind) call failed; and any failure of
`udp_open` stems from address parsing, socket creation or the non-blocking
configuration, never from the peer being unreachable. -/
theorem udp_open_lazy_peer (env : UdpOpenEnv) (ss fd : Nat)
    (hp : env.parse = .ok ss) (hs : env.socketFd = .ok fd)
    (hn : env.setNonblocking = none) :
    udp_open env =
      .ok { fd := fd, remote := ss, connectStatus := 0, connected := true } ∧
    ∀ env2 : UdpOpenEnv, ∀ e : Nat, udp_open env2 = .error e →
      env2.parse = .error e ∨
      (env2.socketFd = .error e ∧ ∃ a, env2.parse = .ok a) ∨
      (env2.setNonblocking = some e ∧ ∃ a b, env2.parse = .ok a ∧
        env2.socketFd = .ok b) := by
  constructor
  · unfold udp_open
    rw [hp, hs, hn]
  · intro env2 e herr
    unfold udp_open at herr
    cases hp2 : env2.parse with
    | error e2 =>
        rw [hp2] at herr
        injection herr with h2
        subst h2
        exact Or.inl rfl
    | ok a =>
        rw [hp2] at herr
        cases hs2 : env2.socketFd with
        | error e3 =>
            rw [hs2] at herr
            injection herr with h3
            subst h3
            exact Or.inr (Or.inl ⟨rfl, a, rfl⟩)
        | ok b =>
            rw [hs2] at herr
            cases hn2 : env2.setNonblocking with
            | none =>
                rw [hn2] at herr
                exact absurd herr (by simp)
            | some e4 =>
                rw [hn2] at herr
                injection herr with h4
                subst h4
                exact Or.inr (Or.inr ⟨rfl, a, b, rfl, rfl⟩)

/-- Witness for C7: a concrete environment where `connect` fails with
`ECONNREFUSED` (111) still opens successfully. -/
theorem udp_open_lazy_peer_witness :
    udp_open ⟨.ok 5, .ok 3, none, some 111, none⟩ =
      .ok { fd := 3, remote := 5, connectStatus := 0, connected := true } :=
  (udp_open_lazy_peer ⟨.ok 5, .ok 3, none, some 111, none⟩ 5 3 rfl rfl rfl).1

/-- Claim C8: `udp_recv` maps a zero-length datagram to `-EAGAIN` (not a
valid empty read), maps a socket `EAGAIN`/`EWOULDBLOCK` condition to
`-EAGAIN`, and maps any other socket errno `e` to `-e`, which is distinct
from `-EAGAIN`, so WouldBlock is always distinguishable from a hard
error. -/
theorem udp_recv_error_discrimination (n e : Nat)
    (he : e ≠ EAGAIN) (hw : e ≠ EWOULDBLOCK) :
    udp_recv (.datagram []) n = (-(EAGAIN : Int), []) ∧
    udp_recv (.sockErr EAGAIN) n = (-(EAGAIN : Int), []) ∧
    udp_recv (.sockErr EWOULDBLOCK) n = (-(EAGAIN : Int), []) ∧
    (udp_recv (.sockErr e) n).1 = -(e : Int) ∧
    (udp_recv (.sockErr e) n).1 ≠ -(EAGAIN : Int) := by
  have heval : udp_recv (.sockErr e) n = (-(e : Int), []) := by
    simp only [udp_recv]
    rw [if_neg]
    simp only [Bool.or_eq_true, decide_eq_true_eq, not_or]
    exact ⟨he, hw⟩
  refine ⟨by simp [udp_recv], by simp [udp_recv], by simp [udp_recv],
    by rw [heval], ?_⟩
  rw [heval]
  intro hcontra
  have : e = EAGAIN := by
    have := Int.neg_inj.mp hcontra
    exact_mod_cast this
  exact he this

/-- Witness for C8 at errno 13 (`EACCES`, permission denied). -/
theorem udp_recv_error_discrimination_witness :
    udp_recv (.datagram []) 65535 = (-(EAGAIN : Int), []) ∧
    udp_recv (.sockErr EAGAIN) 65535 = (-(EAGAIN : Int), []) ∧
    udp_recv (.sockErr EWOULDBLOCK) 65535 = (-(EAGAIN : Int), []) ∧
    (udp_recv (.sockErr 13) 65535).1 = -((13 : Nat) : Int) ∧
    (udp_recv (.sockErr 13) 65535).1 ≠ -(EAGAIN : Int) :=
  udp_recv_error_discrimination 65535 13 (by decide) (by decide)
